import Mathlib

/-!
# Verification of the SOF mailbox transport and control-synchronization layer

Shallow embedding of the control-plane code of the repository:
* the block transfer engine (`sof_block_write` / `sof_block_read`),
* the volume codec (`mixer_to_ipc` / `ipc_to_mixer`),
* the ALSA control get/put handlers of `sound/soc/sof/control.c`.

Device-visible memory is modelled byte-addressed as `Nat → Nat`; a byte-valued
memory maps every address to a value below 256.  External kernel primitives
(power management, the RPC transport, user-space copies) are modelled as an
explicit environment of oracle results plus an effect record, so that each
handler becomes a pure function from its environment and inputs to its return
value, the updated cached control data, and the observable side effects.
-/

set_option linter.unusedVariables false

namespace SOF

/-! ## Block Transfer Engine (`sof_block_write` / `sof_block_read`) -/

/-- Little-endian 32-bit read of the four bytes at `addr`: models both
`ioread32` on the mapped region and the `*(u32 *)(src_byte + m * 4)` access to
the source buffer in `sof_block_write`. -/
def read32le (buf : Nat → Nat) (addr : Nat) : Nat :=
  buf addr % 256 + 256 * (buf (addr + 1) % 256) + 65536 * (buf (addr + 2) % 256) +
    16777216 * (buf (addr + 3) % 256)

/-- Little-endian 32-bit write: models `iowrite32`, storing the four bytes of
`v` at `addr`, `addr+1`, `addr+2`, `addr+3`. -/
def iowrite32 (mem : Nat → Nat) (addr v : Nat) : Nat → Nat := fun a =>
  if a = addr then v % 256
  else if a = addr + 1 then v / 256 % 256
  else if a = addr + 2 then v / 65536 % 256
  else if a = addr + 3 then v / 16777216 % 256
  else mem a

/-- Modelled from the spec: `__iowrite32_copy` (a kernel primitive outside the
given sources) is the bulk word-copy primitive — it copies `m` whole 32-bit
words from the source buffer at `srcOff` to the region at `dest`. -/
def iowrite32_copy (mem : Nat → Nat) (dest : Nat) (src : Nat → Nat) (srcOff m : Nat) :
    Nat → Nat :=
  match m with
  | 0 => mem
  | Nat.succ k =>
    iowrite32_copy (iowrite32 mem dest (read32le src srcOff)) (dest + 4) src (srcOff + 4) k

/-- `sof_block_write`: copy `m = size / 4` whole 32-bit words, then patch the
trailing `n = size % 4` bytes via read-modify-write with the affected mask
`(1 <<< (8 * n)) - 1`, preserving the unaffected high-order bytes of the last
destination word. -/
def sof_block_write (mem : Nat → Nat) (offset : Nat) (src : Nat → Nat) (size : Nat) :
    Nat → Nat :=
  let m := size / 4
  let n := size % 4
  let mem1 := iowrite32_copy mem offset src 0 m
  if n = 0 then mem1
  else
    let affected_mask := (1 <<< (8 * n)) - 1
    let tmp := read32le mem1 (offset + m * 4)
    let tmp2 := tmp &&& (4294967295 - affected_mask)
    let tmp3 := tmp2 ||| (read32le src (m * 4) &&& affected_mask)
    iowrite32 mem1 (offset + m * 4) tmp3

/-- `sof_block_read`: straight byte-wise copy (`memcpy_fromio`) of `size` bytes
from the region at `offset` into the destination buffer. -/
def sof_block_read (mem : Nat → Nat) (offset : Nat) (dest : Nat → Nat) (size : Nat) :
    Nat → Nat := fun i =>
  if i < size then mem (offset + i) else dest i

/-! ## Control Value Codec (`mixer_to_ipc` / `ipc_to_mixer`) -/

/-- `mixer_to_ipc` (control.c:157): clamp an out-of-range UI value to the last
table entry, otherwise index the volume table directly. -/
def mixer_to_ipc (value : Nat) (volume_map : List Nat) (size : Nat) : Nat :=
  if size ≤ value then volume_map.getD (size - 1) 0
  else volume_map.getD value 0

/-- The scan loop of `ipc_to_mixer`: `i` is the loop counter and `fuel` the
number of remaining iterations (`size - i`); falling out of the loop returns
`i - 1` as the C `int` does. -/
def ipc_to_mixer_go (value : Nat) (volume_map : List Nat) (i fuel : Nat) : Int :=
  match fuel with
  | 0 => (i : Int) - 1
  | Nat.succ f =>
    if value ≤ volume_map.getD i 0 then (i : Int)
    else ipc_to_mixer_go value volume_map (i + 1) f

/-- `ipc_to_mixer` (control.c:165): linear scan for the first table entry
`≥ value`; if none is found the loop exits with `i = size` and `i - 1` is
returned. -/
def ipc_to_mixer (value : Nat) (volume_map : List Nat) (size : Nat) : Int :=
  ipc_to_mixer_go value volume_map 0 size

/-! ## Data model of the control handlers -/

/-- One channel's entry of the cached control payload
(`struct sof_ipc_ctrl_value_chan`). -/
structure Chanv where
  channel : Nat
  value : Nat
deriving Repr, DecidableEq

/-- Modelled from the spec: the blob header `{ magic, abi_version, payload_size }`
followed by the opaque payload bytes (`struct sof_abi_hdr` is declared outside
the given sources). -/
structure AbiHdr where
  magic : Nat
  abi : Nat
  size : Nat
  payload : List Nat
deriving Repr, DecidableEq

/-- The cached control payload `struct sof_ipc_ctrl_data`: the per-channel
value vector and the binary blob buffer `cdata->data`. -/
structure CtrlData where
  chanv : List Chanv
  data : AbiHdr
deriving Repr, DecidableEq

/-- The fields of `struct snd_sof_control` the handlers use. -/
structure SofControl where
  comp_id : Nat
  num_channels : Nat
  volume_table : List Nat
  cmd : Nat
deriving Repr, DecidableEq

/-- A widget-list entry (`struct snd_sof_widget`): its component id and its
widget type id. -/
structure SofWidget where
  comp_id : Nat
  id : Int
deriving Repr, DecidableEq

/-- The extended-bytes user envelope header (`struct snd_ctl_tlv`): an id
(`numid`) and a byte length. -/
structure TlvHeader where
  numid : Nat
  length : Nat
deriving Repr, DecidableEq

def EINVAL : Int := 22
def EFAULT : Int := 14

/-- Modelled from the spec: opaque RPC command identifiers (the wire encoding
of the request envelope is out of scope); only their distinctness matters. -/
def SOF_IPC_COMP_GET_VALUE : Nat := 256
def SOF_IPC_COMP_SET_VALUE : Nat := 257
def SOF_IPC_COMP_GET_DATA : Nat := 258
def SOF_IPC_COMP_SET_DATA : Nat := 259
def SOF_CTRL_TYPE_VALUE_CHAN_GET : Nat := 0
def SOF_CTRL_TYPE_DATA_GET : Nat := 1
def SOF_CTRL_TYPE_DATA_SET : Nat := 2
def SOF_CTRL_CMD_VOLUME : Nat := 0
def SOF_CTRL_CMD_SWITCH : Nat := 1
def SOF_CTRL_CMD_ENUM : Nat := 2
def SOF_IPC_STREAM_PCM_PARAMS : Nat := 400
def SOF_IPC_STREAM_TRIG_START : Nat := 401
def SOF_IPC_STREAM_PCM_FREE : Nat := 402

/-- Widget type tags from the external `snd_soc_dapm` enumeration; the concrete
values are irrelevant, only their distinctness matters. -/
def snd_soc_dapm_pga : Int := 6
def snd_soc_dapm_siggen : Int := 18

/-- The fixed blob magic constant checked by `snd_sof_bytes_ext_put`. -/
def SOF_ABI_MAGIC : Nat := 0x00464F53

/-- Modelled from the spec: the major component of an ABI version word. -/
def SOF_ABI_VERSION_MAJOR (v : Nat) : Nat := v / 2 ^ 24 % 2 ^ 8

/-- Modelled from the spec: the minor component of an ABI version word. -/
def SOF_ABI_VERSION_MINOR (v : Nat) : Nat := v / 2 ^ 12 % 2 ^ 12

/-- The ABI version the core was built against (a configuration constant). -/
def SOF_ABI_VERSION : Nat := 3 * 2 ^ 24 + 6 * 2 ^ 12

/-- Modelled from the spec: a payload ABI version is incompatible iff its major
version differs, or its minor version is newer than the core's own. -/
def SOF_ABI_VERSION_INCOMPATIBLE (sof_ver client_ver : Nat) : Bool :=
  (SOF_ABI_VERSION_MAJOR sof_ver != SOF_ABI_VERSION_MAJOR client_ver) ||
    decide (SOF_ABI_VERSION_MINOR sof_ver < SOF_ABI_VERSION_MINOR client_ver)

/-- Modelled from the spec: the blob header `{ magic, abi_version, payload_size }`
occupies 12 bytes (`sizeof(struct sof_abi_hdr)` with three u32 fields). -/
def sof_abi_hdr_size : Nat := 12

/-- Modelled from the spec: the extended envelope `{ id, length }` occupies
8 bytes (`sizeof(struct snd_ctl_tlv)` with two u32 fields). -/
def snd_ctl_tlv_size : Nat := 8

/-- Size of the fixed byte array `ucontrol->value.bytes.data` of the external
ALSA `struct snd_ctl_elem_value`. -/
def ucontrol_bytes_data_size : Nat := 512

/-- Default element for out-of-range `chanv` indexing. -/
def chanvDefault : Chanv := { channel := 0, value := 0 }

/-- A recorded RPC transaction: the command triple and a snapshot of the control
data it carried. -/
structure IpcCall where
  cmd : Nat
  ctrl_type : Nat
  ctrl_cmd : Nat
  payload : CtrlData
deriving Repr, DecidableEq

/-- The observable side effects of one handler invocation. -/
structure Effects where
  ipc : List IpcCall
  tx_msgs : List Nat
  put_noidle : Nat
  mark_last_busy : Nat
  put_autosuspend : Nat
  user_copy : List Nat
  vfe_status : List Nat
  dpcm_updates : Nat
deriving Repr, DecidableEq

def noEffects : Effects := ⟨[], [], 0, 0, 0, [], [], 0⟩

/-- The environment of oracle results for the external primitives a handler
consumes: power management, the RPC transport, user-space copies, and the
widget list of the device. -/
structure Env where
  pm_get_sync_ret : Int
  pm_put_autosuspend_ret : Int
  ipc_ret : Int
  dsp_chanv : List Chanv
  dsp_data : AbiHdr
  copy_header_ok : Bool
  user_header : TlvHeader
  copy_data_ok : Bool
  user_data : AbiHdr
  copy_hdr_to_user_ok : Bool
  copy_data_to_user_ok : Bool
  widget_list : List SofWidget
  pcm_params_ret : Int
  trigger_ret : Int
deriving Repr, DecidableEq

/-- Modelled from the spec: the opaque RPC primitive
`snd_sof_ipc_set_get_comp_data` (its implementation is outside the given
sources).  For a get command the device reply fills the cached control data;
for a set command the current cached data is sent.  It returns the transport
status, the updated cache, and a record of the transaction. -/
def snd_sof_ipc_set_get_comp_data (env : Env) (cdata : CtrlData)
    (cmd ctrl_type ctrl_cmd : Nat) (send : Bool) : Int × CtrlData × IpcCall :=
  let cdata1 :=
    if cmd = SOF_IPC_COMP_GET_VALUE then { cdata with chanv := env.dsp_chanv }
    else if cmd = SOF_IPC_COMP_GET_DATA then { cdata with data := env.dsp_data }
    else cdata
  (env.ipc_ret, cdata1,
    { cmd := cmd, ctrl_type := ctrl_type, ctrl_cmd := ctrl_cmd, payload := cdata1 })

/-- `get_widget_type` (control.c:17): the widget type of the first widget whose
`comp_id` matches, `-EINVAL` for a standalone kcontrol. -/
def get_widget_type (widget_list : List SofWidget) (comp_id : Nat) : Int :=
  match widget_list.find? (fun w => w.comp_id == comp_id) with
  | some w => w.id
  | none => -EINVAL

/-- `siggen_pcm_params` (control.c:32): one stream-params message via
`sof_ipc_tx_message`; returns the transport status and the command sent. -/
def siggen_pcm_params (env : Env) : Int × Nat :=
  (env.pcm_params_ret, SOF_IPC_STREAM_PCM_PARAMS)

/-- `siggen_trigger` (control.c:62): one stream trigger message `cmd`. -/
def siggen_trigger (env : Env) (cmd : Nat) : Int × Nat :=
  (env.trigger_ret, cmd)

/-- `set_vfe_active_status` (control.c:84): records the status written to the
matching virtual FE links (the runtime list itself is out of scope). -/
def set_vfe_active_status (status : Nat) : Int × List Nat :=
  (0, [status])

/-- `siggen_pipeline_trigger` (control.c:121): on 1→0 free the pcm; on 0→1 mark
the FE active, update the BE, send pcm params (aborting on failure) and start
the siggen stream. -/
def siggen_pipeline_trigger (env : Env) (new_state : Nat) : Int × Effects :=
  if new_state = 0 then
    let v := set_vfe_active_status 0
    let t := siggen_trigger env SOF_IPC_STREAM_PCM_FREE
    (t.1, { noEffects with vfe_status := v.2, tx_msgs := [t.2] })
  else
    let v := set_vfe_active_status 1
    let p := siggen_pcm_params env
    if p.1 < 0 then
      (p.1, { noEffects with vfe_status := v.2, dpcm_updates := 1, tx_msgs := [p.2] })
    else
      let t := siggen_trigger env SOF_IPC_STREAM_TRIG_START
      (t.1, { noEffects with vfe_status := v.2, dpcm_updates := 1, tx_msgs := [p.2, t.2] })

/-! ## Control handlers (control.c) -/

/-- `snd_sof_volume_get` (control.c:177): resume, fetch all channel values from
the DSP (transport status ignored), decode each channel through `ipc_to_mixer`,
schedule idle, return 0. -/
def snd_sof_volume_get (env : Env) (sm_max : Nat) (sc : SofControl) (cdata : CtrlData)
    (ucontrol : List Int) : Int × CtrlData × List Int × Effects :=
  if env.pm_get_sync_ret < 0 then
    (env.pm_get_sync_ret, cdata, ucontrol, { noEffects with put_noidle := 1 })
  else
    let r := snd_sof_ipc_set_get_comp_data env cdata SOF_IPC_COMP_GET_VALUE
      SOF_CTRL_TYPE_VALUE_CHAN_GET SOF_CTRL_CMD_VOLUME false
    let cdata1 := r.2.1
    let ucontrol1 := (List.range sc.num_channels).map fun i =>
      ipc_to_mixer (cdata1.chanv.getD i chanvDefault).value sc.volume_table (sm_max + 1)
    (0, cdata1, ucontrol1,
      { noEffects with ipc := [r.2.2], mark_last_busy := 1, put_autosuspend := 1 })

/-- `snd_sof_volume_put` (control.c:219): resume, encode every channel through
`mixer_to_ipc` into the cache, unconditionally send the set-value transaction
(transport status ignored), schedule idle, return 0. -/
def snd_sof_volume_put (env : Env) (sm_max : Nat) (sc : SofControl) (cdata : CtrlData)
    (ucontrol : List Nat) : Int × CtrlData × Effects :=
  if env.pm_get_sync_ret < 0 then
    (env.pm_get_sync_ret, cdata, { noEffects with put_noidle := 1 })
  else
    let cdata1 := { cdata with chanv := (List.range sc.num_channels).map fun i =>
      { channel := i, value := mixer_to_ipc (ucontrol.getD i 0) sc.volume_table (sm_max + 1) } }
    let r := snd_sof_ipc_set_get_comp_data env cdata1 SOF_IPC_COMP_SET_VALUE
      SOF_CTRL_TYPE_VALUE_CHAN_GET SOF_CTRL_CMD_VOLUME true
    (0, r.2.1, { noEffects with ipc := [r.2.2], mark_last_busy := 1, put_autosuspend := 1 })

/-- `snd_sof_switch_get` (control.c:263): resume, fetch all channel values from
the DSP (transport status ignored), copy them back verbatim, return 0. -/
def snd_sof_switch_get (env : Env) (sc : SofControl) (cdata : CtrlData)
    (ucontrol : List Int) : Int × CtrlData × List Int × Effects :=
  if env.pm_get_sync_ret < 0 then
    (env.pm_get_sync_ret, cdata, ucontrol, { noEffects with put_noidle := 1 })
  else
    let r := snd_sof_ipc_set_get_comp_data env cdata SOF_IPC_COMP_GET_VALUE
      SOF_CTRL_TYPE_VALUE_CHAN_GET SOF_CTRL_CMD_SWITCH false
    let cdata1 := r.2.1
    let ucontrol1 := (List.range sc.num_channels).map fun i =>
      ((cdata1.chanv.getD i chanvDefault).value : Int)
    (0, cdata1, ucontrol1,
      { noEffects with ipc := [r.2.2], mark_last_busy := 1, put_autosuspend := 1 })

/-- `snd_sof_switch_put` (control.c:303): resume, then branch on the widget
type.  For pga the comparison is per channel; for siggen and the default branch
all channels take `ucontrol[0]` and, because `chanv[0]` is overwritten at the
first iteration, only the first iteration can observe a change.  The set-value
transaction is sent only when a change was observed; siggen controls
additionally trigger the pipeline, whose failure is logged but not returned.
Returns 0 whenever the resume succeeded. -/
def snd_sof_switch_put (env : Env) (sm_max : Nat) (sc : SofControl) (cdata : CtrlData)
    (ucontrol : List Nat) : Int × CtrlData × Effects :=
  if env.pm_get_sync_ret < 0 then
    (env.pm_get_sync_ret, cdata, { noEffects with put_noidle := 1 })
  else
    let wt := get_widget_type env.widget_list sc.comp_id
    if wt = snd_soc_dapm_pga then
      let changed := (List.range sc.num_channels).any fun i =>
        ucontrol.getD i 0 != (cdata.chanv.getD i chanvDefault).value
      let cdata1 := { cdata with chanv := (List.range sc.num_channels).map fun i =>
        { channel := i, value := ucontrol.getD i 0 } }
      if changed then
        let r := snd_sof_ipc_set_get_comp_data env cdata1 SOF_IPC_COMP_SET_VALUE
          SOF_CTRL_TYPE_VALUE_CHAN_GET SOF_CTRL_CMD_SWITCH true
        (0, r.2.1, { noEffects with ipc := [r.2.2], mark_last_busy := 1, put_autosuspend := 1 })
      else
        (0, cdata1, { noEffects with mark_last_busy := 1, put_autosuspend := 1 })
    else if wt = snd_soc_dapm_siggen then
      let new_state := ucontrol.getD 0 0
      let changed := decide (sc.num_channels ≠ 0 ∧
        new_state ≠ (cdata.chanv.getD 0 chanvDefault).value)
      let cdata1 := { cdata with chanv := (List.range sc.num_channels).map fun i =>
        { channel := i, value := new_state } }
      if changed then
        let r := snd_sof_ipc_set_get_comp_data env cdata1 SOF_IPC_COMP_SET_VALUE
          SOF_CTRL_TYPE_VALUE_CHAN_GET SOF_CTRL_CMD_SWITCH true
        let t := siggen_pipeline_trigger env new_state
        (0, r.2.1, { t.2 with ipc := [r.2.2], mark_last_busy := 1, put_autosuspend := 1 })
      else
        (0, cdata1, { noEffects with mark_last_busy := 1, put_autosuspend := 1 })
    else
      let new_state := ucontrol.getD 0 0
      let changed := decide (sc.num_channels ≠ 0 ∧
        new_state ≠ (cdata.chanv.getD 0 chanvDefault).value)
      let cdata1 := { cdata with chanv := (List.range sc.num_channels).map fun i =>
        { channel := i, value := new_state } }
      if changed then
        let r := snd_sof_ipc_set_get_comp_data env cdata1 SOF_IPC_COMP_SET_VALUE
          SOF_CTRL_TYPE_VALUE_CHAN_GET SOF_CTRL_CMD_SWITCH true
        (0, r.2.1, { noEffects with ipc := [r.2.2], mark_last_busy := 1, put_autosuspend := 1 })
      else
        (0, cdata1, { noEffects with mark_last_busy := 1, put_autosuspend := 1 })

/-- `snd_sof_enum_get` (control.c:427): resume, fetch all channel values from
the DSP (transport status ignored), copy them back verbatim, return 0. -/
def snd_sof_enum_get (env : Env) (sc : SofControl) (cdata : CtrlData)
    (ucontrol : List Int) : Int × CtrlData × List Int × Effects :=
  if env.pm_get_sync_ret < 0 then
    (env.pm_get_sync_ret, cdata, ucontrol, { noEffects with put_noidle := 1 })
  else
    let r := snd_sof_ipc_set_get_comp_data env cdata SOF_IPC_COMP_GET_VALUE
      SOF_CTRL_TYPE_VALUE_CHAN_GET SOF_CTRL_CMD_ENUM false
    let cdata1 := r.2.1
    let ucontrol1 := (List.range sc.num_channels).map fun i =>
      ((cdata1.chanv.getD i chanvDefault).value : Int)
    (0, cdata1, ucontrol1,
      { noEffects with ipc := [r.2.2], mark_last_busy := 1, put_autosuspend := 1 })

/-- `snd_sof_enum_put` (control.c:467): resume, copy every channel value into
the cache, unconditionally send the set-value transaction (transport status
ignored), schedule idle, return 0. -/
def snd_sof_enum_put (env : Env) (sc : SofControl) (cdata : CtrlData)
    (ucontrol : List Nat) : Int × CtrlData × Effects :=
  if env.pm_get_sync_ret < 0 then
    (env.pm_get_sync_ret, cdata, { noEffects with put_noidle := 1 })
  else
    let cdata1 := { cdata with chanv := (List.range sc.num_channels).map fun i =>
      { channel := i, value := ucontrol.getD i 0 } }
    let r := snd_sof_ipc_set_get_comp_data env cdata1 SOF_IPC_COMP_SET_VALUE
      SOF_CTRL_TYPE_VALUE_CHAN_GET SOF_CTRL_CMD_ENUM true
    (0, r.2.1, { noEffects with ipc := [r.2.2], mark_last_busy := 1, put_autosuspend := 1 })

/-- `snd_sof_bytes_get` (control.c:509): reject a topology maximum larger than
the ucontrol array, resume, fetch the blob from the DSP (transport status
ignored), then validate `data->size + sizeof(*data)` against the maximum before
copying out; on violation return `-EINVAL` without copying. -/
def snd_sof_bytes_get (env : Env) (be_max : Nat) (sc : SofControl) (cdata : CtrlData) :
    Int × CtrlData × Effects :=
  if ucontrol_bytes_data_size < be_max then (-EINVAL, cdata, noEffects)
  else if env.pm_get_sync_ret < 0 then
    (env.pm_get_sync_ret, cdata, { noEffects with put_noidle := 1 })
  else
    let r := snd_sof_ipc_set_get_comp_data env cdata SOF_IPC_COMP_GET_DATA
      SOF_CTRL_TYPE_DATA_GET sc.cmd false
    let cdata1 := r.2.1
    let size := cdata1.data.size + sof_abi_hdr_size
    if be_max < size then
      (-EINVAL, cdata1,
        { noEffects with ipc := [r.2.2], mark_last_busy := 1, put_autosuspend := 1 })
    else
      (env.pm_get_sync_ret, cdata1,
        { noEffects with
          ipc := [r.2.2]
          user_copy := [size]
          mark_last_busy := 1
          put_autosuspend := 1 })

/-- `snd_sof_bytes_put` (control.c:566): validate the topology maximum and the
cached header's declared size, resume, copy the user bytes into the cache, send
the set-data transaction (transport status ignored), return the resume
status. -/
def snd_sof_bytes_put (env : Env) (be_max : Nat) (sc : SofControl) (cdata : CtrlData)
    (ucontrol_data : AbiHdr) : Int × CtrlData × Effects :=
  let size := cdata.data.size + sof_abi_hdr_size
  if ucontrol_bytes_data_size < be_max then (-EINVAL, cdata, noEffects)
  else if be_max < size then (-EINVAL, cdata, noEffects)
  else if env.pm_get_sync_ret < 0 then
    (env.pm_get_sync_ret, cdata, { noEffects with put_noidle := 1 })
  else
    let cdata1 := { cdata with data := ucontrol_data }
    let r := snd_sof_ipc_set_get_comp_data env cdata1 SOF_IPC_COMP_SET_DATA
      SOF_CTRL_TYPE_DATA_SET sc.cmd true
    (env.pm_get_sync_ret, r.2.1,
      { noEffects with ipc := [r.2.2], mark_last_busy := 1, put_autosuspend := 1 })

/-- `snd_sof_bytes_ext_put` (control.c:620): read the user envelope header,
check its length against the topology maximum and its id against the control's
command, copy the user blob into `cdata->data`, and only then check the magic,
the ABI version and the declared size; finally resume and send the set-data
transaction (transport status ignored), returning the resume status. -/
def snd_sof_bytes_ext_put (env : Env) (be_max : Nat) (sc : SofControl) (cdata : CtrlData) :
    Int × CtrlData × Effects :=
  if env.copy_header_ok = false then (-EFAULT, cdata, noEffects)
  else if be_max < env.user_header.length then (-EINVAL, cdata, noEffects)
  else if env.user_header.numid ≠ sc.cmd then (-EINVAL, cdata, noEffects)
  else if env.copy_data_ok = false then (-EFAULT, cdata, noEffects)
  else
    let cdata1 := { cdata with data := env.user_data }
    if cdata1.data.magic ≠ SOF_ABI_MAGIC then (-EINVAL, cdata1, noEffects)
    else if SOF_ABI_VERSION_INCOMPATIBLE SOF_ABI_VERSION cdata1.data.abi then
      (-EINVAL, cdata1, noEffects)
    else if be_max < cdata1.data.size + sof_abi_hdr_size then (-EINVAL, cdata1, noEffects)
    else if env.pm_get_sync_ret < 0 then
      (env.pm_get_sync_ret, cdata1, { noEffects with put_noidle := 1 })
    else
      let r := snd_sof_ipc_set_get_comp_data env cdata1 SOF_IPC_COMP_SET_DATA
        SOF_CTRL_TYPE_DATA_SET sc.cmd true
      (env.pm_get_sync_ret, r.2.1,
        { noEffects with ipc := [r.2.2], mark_last_busy := 1, put_autosuspend := 1 })

/-- `snd_sof_bytes_ext_get` (control.c:705): resume, decrement the caller's
size by the envelope header size (a value that is never used afterwards),
preset the ABI header, fetch the blob from the DSP, check the device-reported
size only against the topology maximum, then copy the envelope header and
`data_size` bytes to user space; returns the transport status on success. -/
def snd_sof_bytes_ext_get (env : Env) (be_max : Nat) (sc : SofControl) (cdata : CtrlData)
    (size : Nat) : Int × CtrlData × Effects :=
  if env.pm_get_sync_ret < 0 then
    (env.pm_get_sync_ret, cdata, { noEffects with put_noidle := 1 })
  else
    let _size := size - snd_ctl_tlv_size
    let cdata0 := { cdata with data :=
      { cdata.data with magic := SOF_ABI_MAGIC, abi := SOF_ABI_VERSION } }
    let r := snd_sof_ipc_set_get_comp_data env cdata0 SOF_IPC_COMP_GET_DATA
      SOF_CTRL_TYPE_DATA_GET sc.cmd false
    let cdata1 := r.2.1
    let data_size := cdata1.data.size + sof_abi_hdr_size
    if be_max < data_size then
      (-EINVAL, cdata1,
        { noEffects with ipc := [r.2.2], mark_last_busy := 1, put_autosuspend := 1 })
    else if env.copy_hdr_to_user_ok = false then
      (-EFAULT, cdata1,
        { noEffects with ipc := [r.2.2], mark_last_busy := 1, put_autosuspend := 1 })
    else if env.copy_data_to_user_ok = false then
      (-EFAULT, cdata1,
        { noEffects with
          ipc := [r.2.2]
          user_copy := [snd_ctl_tlv_size]
          mark_last_busy := 1
          put_autosuspend := 1 })
    else
      (r.1, cdata1,
        { noEffects with
          ipc := [r.2.2]
          user_copy := [snd_ctl_tlv_size, data_size]
          mark_last_busy := 1
          put_autosuspend := 1 })

/-! ## Shared concrete instances for counterexamples and witnesses -/

/-- A baseline environment: every external primitive succeeds. -/
def envBase : Env :=
  { pm_get_sync_ret := 0, pm_put_autosuspend_ret := 0, ipc_ret := 0,
    dsp_chanv := [], dsp_data := { magic := 0, abi := 0, size := 0, payload := [] },
    copy_header_ok := true, user_header := { numid := 0, length := 0 },
    copy_data_ok := true, user_data := { magic := 0, abi := 0, size := 0, payload := [] },
    copy_hdr_to_user_ok := true, copy_data_to_user_ok := true,
    widget_list := [], pcm_params_ret := 0, trigger_ret := 0 }

/-- An all-zero blob buffer. -/
def abi0 : AbiHdr := { magic := 0, abi := 0, size := 0, payload := [] }

/-- A one-channel cached control payload whose channel value is 10. -/
def cd10 : CtrlData := { chanv := [{ channel := 0, value := 10 }], data := abi0 }

/-- A one-channel volume control with table `[0, 10]`. -/
def scVol : SofControl := { comp_id := 0, num_channels := 1, volume_table := [0, 10], cmd := 0 }

/-- A bytes control whose command id is 7. -/
def scBytes : SofControl := { comp_id := 0, num_channels := 0, volume_table := [], cmd := 7 }

/-- An environment whose RPC transport fails with -110. -/
def envIpcFail : Env := { envBase with ipc_ret := -110 }

/-- An environment whose synchronous resume fails with -13. -/
def envPmFail : Env := { envBase with pm_get_sync_ret := -13 }

/-- A failing-resume environment carrying a fully valid extended-bytes put
request (correct envelope id, magic, ABI version and size). -/
def envPmFailExt : Env :=
  { envBase with
    pm_get_sync_ret := -13
    user_header := { numid := 7, length := 0 }
    user_data := { magic := SOF_ABI_MAGIC, abi := SOF_ABI_VERSION, size := 0, payload := [] } }

/-- An environment carrying an extended-bytes put request whose envelope checks
pass but whose blob magic is wrong. -/
def envMagicBad : Env :=
  { envBase with
    user_header := { numid := 7, length := 4 }
    user_data := { magic := 1, abi := 0, size := 0, payload := [2] } }

/-- An environment carrying an extended-bytes put request whose envelope and
magic checks pass but whose blob ABI major version is incompatible. -/
def envAbiBad : Env :=
  { envBase with
    user_header := { numid := 7, length := 4 }
    user_data := { magic := SOF_ABI_MAGIC, abi := 7 * 2 ^ 24, size := 0, payload := [] } }

/-- An environment carrying an extended-bytes put request whose envelope, magic
and ABI checks pass but whose declared blob size exceeds the maximum. -/
def envSizeBad : Env :=
  { envBase with
    user_header := { numid := 7, length := 4 }
    user_data := { magic := SOF_ABI_MAGIC, abi := SOF_ABI_VERSION, size := 100, payload := [] } }

/-- An environment whose device reports a blob of declared payload size 60. -/
def envDsp60 : Env :=
  { envBase with
    dsp_data := { magic := SOF_ABI_MAGIC, abi := SOF_ABI_VERSION, size := 60, payload := [] } }

/-- An environment whose device reports a blob of declared payload size 52. -/
def envDsp52 : Env :=
  { envBase with
    dsp_data := { magic := SOF_ABI_MAGIC, abi := SOF_ABI_VERSION, size := 52, payload := [] } }

/-! ## Byte-level lemmas for the block transfer engine -/

theorem read32le_lt (buf : Nat → Nat) (addr : Nat) : read32le buf addr < 4294967296 := by
  unfold read32le
  have h0 : buf addr % 256 < 256 := Nat.mod_lt _ (by omega)
  have h1 : buf (addr + 1) % 256 < 256 := Nat.mod_lt _ (by omega)
  have h2 : buf (addr + 2) % 256 < 256 := Nat.mod_lt _ (by omega)
  have h3 : buf (addr + 3) % 256 < 256 := Nat.mod_lt _ (by omega)
  omega

theorem iowrite32_read32le (mem src : Nat → Nat) (addr s a : Nat) :
    iowrite32 mem addr (read32le src s) a =
      if addr ≤ a ∧ a < addr + 4 then src (s + (a - addr)) % 256 else mem a := by
  have hv0 : read32le src s % 256 = src s % 256 := by unfold read32le; omega
  have hv1 : read32le src s / 256 % 256 = src (s + 1) % 256 := by unfold read32le; omega
  have hv2 : read32le src s / 65536 % 256 = src (s + 2) % 256 := by unfold read32le; omega
  have hv3 : read32le src s / 16777216 % 256 = src (s + 3) % 256 := by
    unfold read32le; omega
  simp only [iowrite32]
  by_cases ha0 : a = addr
  · rw [if_pos ha0, hv0, if_pos (by omega : addr ≤ a ∧ a < addr + 4),
      show s + (a - addr) = s from by omega]
  · rw [if_neg ha0]
    by_cases ha1 : a = addr + 1
    · rw [if_pos ha1, hv1, if_pos (by omega : addr ≤ a ∧ a < addr + 4),
        show s + (a - addr) = s + 1 from by omega]
    · rw [if_neg ha1]
      by_cases ha2 : a = addr + 2
      · rw [if_pos ha2, hv2, if_pos (by omega : addr ≤ a ∧ a < addr + 4),
          show s + (a - addr) = s + 2 from by omega]
      · rw [if_neg ha2]
        by_cases ha3 : a = addr + 3
        · rw [if_pos ha3, hv3, if_pos (by omega : addr ≤ a ∧ a < addr + 4),
            show s + (a - addr) = s + 3 from by omega]
        · rw [if_neg ha3, if_neg (by omega : ¬(addr ≤ a ∧ a < addr + 4))]

theorem iowrite32_copy_byte (src : Nat → Nat) :
    ∀ (m : Nat) (mem : Nat → Nat) (dest srcOff a : Nat),
      iowrite32_copy mem dest src srcOff m a =
        if dest ≤ a ∧ a < dest + 4 * m then src (srcOff + (a - dest)) % 256 else mem a := by
  intro m
  induction m with
  | zero =>
    intro mem dest srcOff a
    rw [if_neg (by omega)]
    rfl
  | succ k ih =>
    intro mem dest srcOff a
    have hstep : iowrite32_copy mem dest src srcOff (Nat.succ k) a =
        iowrite32_copy (iowrite32 mem dest (read32le src srcOff)) (dest + 4) src
          (srcOff + 4) k a := rfl
    rw [hstep, ih]
    by_cases h1 : dest + 4 ≤ a ∧ a < dest + 4 + 4 * k
    · rw [if_pos h1, if_pos (by omega : dest ≤ a ∧ a < dest + 4 * Nat.succ k),
        show srcOff + 4 + (a - (dest + 4)) = srcOff + (a - dest) from by omega]
    · rw [if_neg h1, iowrite32_read32le]
      by_cases h2 : dest ≤ a ∧ a < dest + 4
      · rw [if_pos h2, if_pos (by omega : dest ≤ a ∧ a < dest + 4 * Nat.succ k)]
      · rw [if_neg h2, if_neg (by omega : ¬(dest ≤ a ∧ a < dest + 4 * Nat.succ k))]

theorem and_high_mask (t e : Nat) (ht : t < 4294967296) (he : e ≤ 32) :
    t &&& (4294967295 - (2 ^ e - 1)) = 2 ^ e * (t / 2 ^ e) := by
  have hpe : (0 : Nat) < 2 ^ e := Nat.two_pow_pos e
  have hA32 : (2 : Nat) ^ e ≤ 2 ^ 32 := Nat.pow_le_pow_right (by omega) he
  have hprod : (2 : Nat) ^ e * 2 ^ (32 - e) = 2 ^ 32 := by
    rw [← pow_add]
    congr 1
    omega
  have hmul : (2 : Nat) ^ e * (2 ^ (32 - e) - 1) = 2 ^ e * 2 ^ (32 - e) - 2 ^ e :=
    Nat.mul_sub_one _ _
  have hmask : 4294967295 - (2 ^ e - 1) = 2 ^ e * (2 ^ (32 - e) - 1) := by omega
  rw [hmask]
  apply Nat.eq_of_testBit_eq
  intro j
  rw [Nat.testBit_and, Nat.testBit_mul_pow_two, Nat.testBit_mul_pow_two,
    Nat.testBit_two_pow_sub_one,
    show t / 2 ^ e = t >>> e from (Nat.shiftRight_eq_div_pow t e).symm,
    Nat.testBit_shiftRight]
  by_cases hje : e ≤ j
  · by_cases hj32 : j < 32
    · rw [show e + (j - e) = j from by omega]
      simp [hje, show j - e < 32 - e from by omega]
    · have hbit : t.testBit j = false :=
        Nat.testBit_lt_two_pow
          (lt_of_lt_of_le (by omega : t < 2 ^ 32) (Nat.pow_le_pow_right (by omega) (by omega)))
      rw [show e + (j - e) = j from by omega]
      simp [hbit, show ¬(j - e < 32 - e) from by omega]
  · simp [hje]

theorem rmw_word (t s e : Nat) (ht : t < 4294967296) (he : e ≤ 32) :
    (t &&& (4294967295 - ((1 <<< e) - 1))) ||| (s &&& ((1 <<< e) - 1)) =
      2 ^ e * (t / 2 ^ e) + s % 2 ^ e := by
  have h1 : (1 <<< e) = 2 ^ e := by rw [Nat.shiftLeft_eq, one_mul]
  rw [h1, and_high_mask t e ht he, Nat.and_pow_two_sub_one_eq_mod,
    ← Nat.mul_add_lt_is_or (Nat.mod_lt s (Nat.two_pow_pos e)) (t / 2 ^ e)]

/-- Byte-level characterization of `sof_block_write`: bytes inside
`[offset, offset+size)` take the source bytes; the unaffected bytes of the
trailing word are written back unchanged modulo 256; everything else is
untouched. -/
theorem sof_block_write_byte (mem src : Nat → Nat) (offset size a : Nat) :
    sof_block_write mem offset src size a =
      if offset ≤ a ∧ a < offset + size then src (a - offset) % 256
      else if size % 4 ≠ 0 ∧ offset + size ≤ a ∧ a < offset + 4 * (size / 4) + 4 then
        mem a % 256
      else mem a := by
  have hfn : sof_block_write mem offset src size =
      if size % 4 = 0 then iowrite32_copy mem offset src 0 (size / 4)
      else
        iowrite32 (iowrite32_copy mem offset src 0 (size / 4)) (offset + size / 4 * 4)
          ((read32le (iowrite32_copy mem offset src 0 (size / 4)) (offset + size / 4 * 4) &&&
              (4294967295 - ((1 <<< (8 * (size % 4))) - 1))) |||
            (read32le src (size / 4 * 4) &&& ((1 <<< (8 * (size % 4))) - 1))) := rfl
  by_cases hn : size % 4 = 0
  · rw [hfn, if_pos hn, iowrite32_copy_byte, show 4 * (size / 4) = size from by omega]
    by_cases hin : offset ≤ a ∧ a < offset + size
    · rw [if_pos hin, if_pos hin, Nat.zero_add]
    · rw [if_neg hin, if_neg hin, if_neg (fun h => h.1 hn)]
  · rw [hfn, if_neg hn]
    have hro0 : iowrite32_copy mem offset src 0 (size / 4) (offset + size / 4 * 4) =
        mem (offset + size / 4 * 4) := by
      rw [iowrite32_copy_byte, if_neg (by omega)]
    have hro1 : iowrite32_copy mem offset src 0 (size / 4) (offset + size / 4 * 4 + 1) =
        mem (offset + size / 4 * 4 + 1) := by
      rw [iowrite32_copy_byte, if_neg (by omega)]
    have hro2 : iowrite32_copy mem offset src 0 (size / 4) (offset + size / 4 * 4 + 2) =
        mem (offset + size / 4 * 4 + 2) := by
      rw [iowrite32_copy_byte, if_neg (by omega)]
    have hro3 : iowrite32_copy mem offset src 0 (size / 4) (offset + size / 4 * 4 + 3) =
        mem (offset + size / 4 * 4 + 3) := by
      rw [iowrite32_copy_byte, if_neg (by omega)]
    have hread : read32le (iowrite32_copy mem offset src 0 (size / 4))
        (offset + size / 4 * 4) = read32le mem (offset + size / 4 * 4) := by
      unfold read32le
      rw [hro0, hro1, hro2, hro3]
    rw [hread, rmw_word _ _ _ (read32le_lt mem _) (by omega : 8 * (size % 4) ≤ 32)]
    have hn3 : size % 4 = 1 ∨ size % 4 = 2 ∨ size % 4 = 3 := by omega
    simp only [iowrite32]
    by_cases ha0 : a = offset + size / 4 * 4
    · rw [if_pos ha0]
      subst ha0
      rw [if_pos (by omega : offset ≤ offset + size / 4 * 4 ∧
          offset + size / 4 * 4 < offset + size),
        show offset + size / 4 * 4 - offset = size / 4 * 4 from by omega]
      rcases hn3 with h | h | h <;> rw [h] <;> unfold read32le <;> norm_num <;> omega
    · rw [if_neg ha0]
      by_cases ha1 : a = offset + size / 4 * 4 + 1
      · rw [if_pos ha1]
        subst ha1
        rcases hn3 with h | h | h
        · rw [if_neg (by omega : ¬(offset ≤ offset + size / 4 * 4 + 1 ∧
              offset + size / 4 * 4 + 1 < offset + size)),
            if_pos (by omega : size % 4 ≠ 0 ∧ offset + size ≤ offset + size / 4 * 4 + 1 ∧
              offset + size / 4 * 4 + 1 < offset + 4 * (size / 4) + 4)]
          rw [h]; unfold read32le; norm_num; omega
        · rw [if_pos (by omega : offset ≤ offset + size / 4 * 4 + 1 ∧
              offset + size / 4 * 4 + 1 < offset + size),
            show offset + size / 4 * 4 + 1 - offset = size / 4 * 4 + 1 from by omega]
          rw [h]; unfold read32le; norm_num; omega
        · rw [if_pos (by omega : offset ≤ offset + size / 4 * 4 + 1 ∧
              offset + size / 4 * 4 + 1 < offset + size),
            show offset + size / 4 * 4 + 1 - offset = size / 4 * 4 + 1 from by omega]
          rw [h]; unfold read32le; norm_num; omega
      · rw [if_neg ha1]
        by_cases ha2 : a = offset + size / 4 * 4 + 2
        · rw [if_pos ha2]
          subst ha2
          rcases hn3 with h | h | h
          · rw [if_neg (by omega : ¬(offset ≤ offset + size / 4 * 4 + 2 ∧
                offset + size / 4 * 4 + 2 < offset + size)),
              if_pos (by omega : size % 4 ≠ 0 ∧ offset + size ≤ offset + size / 4 * 4 + 2 ∧
                offset + size / 4 * 4 + 2 < offset + 4 * (size / 4) + 4)]
            rw [h]; unfold read32le; norm_num; omega
          · rw [if_neg (by omega : ¬(offset ≤ offset + size / 4 * 4 + 2 ∧
                offset + size / 4 * 4 + 2 < offset + size)),
              if_pos (by omega : size % 4 ≠ 0 ∧ offset + size ≤ offset + size / 4 * 4 + 2 ∧
                offset + size / 4 * 4 + 2 < offset + 4 * (size / 4) + 4)]
            rw [h]; unfold read32le; norm_num; omega
          · rw [if_pos (by omega : offset ≤ offset + size / 4 * 4 + 2 ∧
                offset + size / 4 * 4 + 2 < offset + size),
              show offset + size / 4 * 4 + 2 - offset = size / 4 * 4 + 2 from by omega]
            rw [h]; unfold read32le; norm_num; omega
        · rw [if_neg ha2]
          by_cases ha3 : a = offset + size / 4 * 4 + 3
          · rw [if_pos ha3]
            subst ha3
            rw [if_neg (by omega : ¬(offset ≤ offset + size / 4 * 4 + 3 ∧
                offset + size / 4 * 4 + 3 < offset + size)),
              if_pos (by omega : size % 4 ≠ 0 ∧ offset + size ≤ offset + size / 4 * 4 + 3 ∧
                offset + size / 4 * 4 + 3 < offset + 4 * (size / 4) + 4)]
            rcases hn3 with h | h | h <;> rw [h] <;> unfold read32le <;> norm_num <;> omega
          · rw [if_neg ha3, iowrite32_copy_byte]
            by_cases hc : offset ≤ a ∧ a < offset + 4 * (size / 4)
            · rw [if_pos hc, if_pos (by omega : offset ≤ a ∧ a < offset + size), Nat.zero_add]
            · rw [if_neg hc, if_neg (by omega : ¬(offset ≤ a ∧ a < offset + size)),
                if_neg (by omega : ¬(size % 4 ≠ 0 ∧ offset + size ≤ a ∧
                  a < offset + 4 * (size / 4) + 4))]

/-! ## Lemmas about the volume codec -/

theorem ipc_to_mixer_go_not_found (value : Nat) (T : List Nat) :
    ∀ (fuel i : Nat), (∀ k, k < fuel → T.getD (i + k) 0 < value) →
      ipc_to_mixer_go value T i fuel = (i : Int) + fuel - 1 := by
  intro fuel
  induction fuel with
  | zero =>
    intro i h
    simp [ipc_to_mixer_go]
  | succ f ih =>
    intro i h
    have h0 : T.getD i 0 < value := by
      have := h 0 (by omega)
      simpa using this
    unfold ipc_to_mixer_go
    rw [if_neg (by omega)]
    have htail : ∀ k, k < f → T.getD (i + 1 + k) 0 < value := by
      intro k hk
      have := h (k + 1) (by omega)
      rw [show i + (k + 1) = i + 1 + k from by omega] at this
      exact this
    rw [ih (i + 1) htail]
    push_cast
    ring

theorem ipc_to_mixer_go_found (value : Nat) (T : List Nat) :
    ∀ (fuel i k : Nat), k < fuel → value ≤ T.getD (i + k) 0 →
      (∀ j, j < k → T.getD (i + j) 0 < value) →
      ipc_to_mixer_go value T i fuel = (i : Int) + k := by
  intro fuel
  induction fuel with
  | zero =>
    intro i k hk
    omega
  | succ f ih =>
    intro i k hk hfound hmin
    unfold ipc_to_mixer_go
    by_cases hk0 : k = 0
    · subst hk0
      rw [if_pos (by simpa using hfound)]
      push_cast
      ring
    · have h0 : T.getD i 0 < value := by
        have := hmin 0 (by omega)
        simpa using this
      rw [if_neg (by omega)]
      have hfound1 : value ≤ T.getD (i + 1 + (k - 1)) 0 := by
        rw [show i + 1 + (k - 1) = i + k from by omega]
        exact hfound
      have hmin1 : ∀ j, j < k - 1 → T.getD (i + 1 + j) 0 < value := by
        intro j hj
        have := hmin (j + 1) (by omega)
        rw [show i + (j + 1) = i + 1 + j from by omega] at this
        exact this
      rw [ih (i + 1) (k - 1) (by omega) hfound1 hmin1]
      have : (1 : Int) + (k - 1 : Nat) = (k : Nat) := by omega
      push_cast
      omega

/-- Non-decreasing lists are monotone in `getD`. -/
theorem pairwise_getD_le (T : List Nat) (hs : List.Pairwise (· ≤ ·) T) (i j : Nat)
    (hij : i ≤ j) (hj : j < T.length) : T.getD i 0 ≤ T.getD j 0 := by
  rcases Nat.eq_or_lt_of_le hij with rfl | hlt
  · exact le_refl _
  · have hi : i < T.length := by omega
    rw [List.getD_eq_getElem _ _ hi, List.getD_eq_getElem _ _ hj]
    exact List.pairwise_iff_getElem.mp hs i j hi hj hlt

/-! ## Claim theorems -/

/-- C4: for every byte length `L`, source buffer and region contents,
`sof_block_write` of `L` bytes at `offset` followed by `sof_block_read` of `L`
bytes at the same offset returns exactly the source bytes, and every region
byte outside `[offset, offset+L)` is unchanged — the read-modify-write of the
trailing partial word preserves the high-order bytes of the last destination
word. -/
theorem claim4_block_write_read_roundtrip (mem src dest : Nat → Nat) (offset L : Nat)
    (hmem : ∀ x, mem x < 256) (hsrc : ∀ i, src i < 256) :
    (∀ i, i < L →
      sof_block_read (sof_block_write mem offset src L) offset dest L i = src i) ∧
    (∀ x, x < offset ∨ offset + L ≤ x → sof_block_write mem offset src L x = mem x) := by
  constructor
  · intro i hi
    have hr : sof_block_read (sof_block_write mem offset src L) offset dest L i =
        sof_block_write mem offset src L (offset + i) := by
      unfold sof_block_read
      rw [if_pos hi]
    rw [hr, sof_block_write_byte,
      if_pos (by omega : offset ≤ offset + i ∧ offset + i < offset + L),
      show offset + i - offset = i from by omega, Nat.mod_eq_of_lt (hsrc i)]
  · intro x hx
    rw [sof_block_write_byte, if_neg (by omega : ¬(offset ≤ x ∧ x < offset + L))]
    by_cases h2 : L % 4 ≠ 0 ∧ offset + L ≤ x ∧ x < offset + 4 * (L / 4) + 4
    · rw [if_pos h2]
      exact Nat.mod_eq_of_lt (hmem x)
    · rw [if_neg h2]

theorem claim4_witness :
    sof_block_read (sof_block_write (fun _ => 7) 2 (fun i => (i + 1) % 256) 5) 2
      (fun _ => 0) 5 3 = 4 ∧
    sof_block_write (fun _ => 7) 2 (fun i => (i + 1) % 256) 5 1 = 7 := by
  have h := claim4_block_write_read_roundtrip (fun _ => 7) (fun i => (i + 1) % 256)
    (fun _ => 0) 2 5 (fun x => by show (7 : Nat) < 256; decide)
    (fun i => Nat.mod_lt _ (by decide))
  exact ⟨h.1 3 (by decide), h.2 1 (Or.inl (by decide))⟩

/-- C5: for every volume table of size ≥ 1 and every UI value, `mixer_to_ipc`
clamps an out-of-range UI value to the last table entry and otherwise returns
the entry at that index. -/
theorem claim5_mixer_to_ipc_clamp (T : List Nat) (value : Nat) (hT : 1 ≤ T.length) :
    (T.length ≤ value → mixer_to_ipc value T T.length = T.getD (T.length - 1) 0) ∧
    (value < T.length → mixer_to_ipc value T T.length = T.getD value 0) := by
  constructor
  · intro h
    unfold mixer_to_ipc
    rw [if_pos h]
  · intro h
    unfold mixer_to_ipc
    rw [if_neg (by omega)]

theorem claim5_witness :
    mixer_to_ipc 5 [0, 10] 2 = 10 ∧ mixer_to_ipc 1 [0, 10] 2 = 10 :=
  ⟨(claim5_mixer_to_ipc_clamp [0, 10] 5 (by decide)).1 (by decide),
   (claim5_mixer_to_ipc_clamp [0, 10] 1 (by decide)).2 (by decide)⟩

/-- C6: for every volume table of size ≥ 1 and device value, `ipc_to_mixer`
returns the index of the first (lowest-index) table entry ≥ the device value,
and `size - 1` when no entry qualifies; concretely, for `[0, 10, 10, 50, 100]`
and device value 10 it returns index 1 (first match wins, not 2). -/
theorem claim6_ipc_to_mixer_first_match (T : List Nat) (value : Nat) (hT : 1 ≤ T.length) :
    (∀ k, k < T.length → value ≤ T.getD k 0 → (∀ j, j < k → T.getD j 0 < value) →
      ipc_to_mixer value T T.length = (k : Int)) ∧
    ((∀ k, k < T.length → T.getD k 0 < value) →
      ipc_to_mixer value T T.length = (T.length : Int) - 1) ∧
    ipc_to_mixer 10 [0, 10, 10, 50, 100] 5 = 1 := by
  refine ⟨?_, ?_, by decide⟩
  · intro k hk hfound hmin
    have hgo := ipc_to_mixer_go_found value T T.length 0 k hk (by simpa using hfound)
      (fun j hj => by simpa using hmin j hj)
    unfold ipc_to_mixer
    rw [hgo]
    omega
  · intro hall
    have hgo := ipc_to_mixer_go_not_found value T T.length 0
      (fun k hk => by simpa using hall k hk)
    unfold ipc_to_mixer
    rw [hgo]
    omega

theorem claim6_witness :
    ipc_to_mixer 3 [5, 9] 2 = 0 ∧ ipc_to_mixer 99 [5, 9] 2 = 1 := by
  refine ⟨(claim6_ipc_to_mixer_first_match [5, 9] 3 (by decide)).1 0 (by decide) (by decide)
      (fun j hj => absurd hj (by omega)),
    (claim6_ipc_to_mixer_first_match [5, 9] 99 (by decide)).2.1 (fun k hk => ?_)⟩
  rcases k with _ | _ | k
  · decide
  · decide
  · simp only [List.length_cons, List.length_nil] at hk
    omega

/-- C7: for every non-decreasing table `T` and `ui` in `[0, len T)`,
re-indexing the table at `ipc_to_mixer (mixer_to_ipc ui T) T` recovers exactly
the device value `mixer_to_ipc ui T` (quantization idempotence). -/
theorem claim7_quantization_idempotent (T : List Nat) (ui : Nat)
    (hs : List.Pairwise (· ≤ ·) T) (hui : ui < T.length) :
    T.getD (ipc_to_mixer (mixer_to_ipc ui T T.length) T T.length).toNat 0 =
      mixer_to_ipc ui T T.length := by
  have hv : mixer_to_ipc ui T T.length = T.getD ui 0 := by
    unfold mixer_to_ipc
    rw [if_neg (by omega)]
  rw [hv]
  have hex : ∃ j, T.getD ui 0 ≤ T.getD j 0 := ⟨ui, le_refl _⟩
  have hk := Nat.find_spec hex
  have hkle : Nat.find hex ≤ ui := Nat.find_min' hex (le_refl _)
  have hmin : ∀ j, j < Nat.find hex → ¬(T.getD ui 0 ≤ T.getD j 0) :=
    fun j hj => Nat.find_min hex hj
  have hklen : Nat.find hex < T.length := lt_of_le_of_lt hkle hui
  have hgo := ipc_to_mixer_go_found (T.getD ui 0) T T.length 0 (Nat.find hex) hklen
    (by simpa using hk)
    (fun j hj => by
      have := hmin j hj
      simp only [Nat.zero_add]
      omega)
  have hipc : ipc_to_mixer (T.getD ui 0) T T.length = (Nat.find hex : Int) := by
    unfold ipc_to_mixer
    rw [hgo]
    omega
  rw [hipc, Int.toNat_natCast]
  exact le_antisymm (pairwise_getD_le T hs _ ui hkle hui) hk

theorem claim7_witness :
    [0, 10, 10, 50, 100].getD
      (ipc_to_mixer (mixer_to_ipc 2 [0, 10, 10, 50, 100] 5) [0, 10, 10, 50, 100] 5).toNat 0 =
      mixer_to_ipc 2 [0, 10, 10, 50, 100] 5 :=
  claim7_quantization_idempotent [0, 10, 10, 50, 100] 2 (by decide) (by decide)

/-- C1 is false for the volume put handler: with a one-channel volume control
whose cached channel value is 10 and a UI value mapping to exactly that cached
value, `snd_sof_volume_put` still issues one device transaction (the handler
never compares against the cache). -/
theorem claim1_counterexample :
    mixer_to_ipc 1 [0, 10] 2 = (cd10.chanv.getD 0 chanvDefault).value ∧
    (snd_sof_volume_put envBase 1 scVol cd10 [1]).2.2.ipc.length = 1 := by decide

/-- C1 (amended): the volume and enum put handlers always issue exactly one
set transaction carrying the full mapped channel vector, whether or not any
channel changed; only the switch put handler compares against the cached
values and issues no device transaction (and no stream message) when no change
is observed; for a channel-specific (pga) switch control, any differing
channel causes exactly one set transaction carrying the full new channel
vector. -/
theorem claim1_put_value_transactions :
    (∀ env sm_max sc cdata ucontrol, ¬env.pm_get_sync_ret < 0 →
      (snd_sof_volume_put env sm_max sc cdata ucontrol).2.2.ipc =
        [{ cmd := SOF_IPC_COMP_SET_VALUE, ctrl_type := SOF_CTRL_TYPE_VALUE_CHAN_GET,
           ctrl_cmd := SOF_CTRL_CMD_VOLUME,
           payload := { cdata with chanv := (List.range sc.num_channels).map fun i =>
             { channel := i,
               value := mixer_to_ipc (ucontrol.getD i 0) sc.volume_table (sm_max + 1) } } }]) ∧
    (∀ env sc cdata ucontrol, ¬env.pm_get_sync_ret < 0 →
      (snd_sof_enum_put env sc cdata ucontrol).2.2.ipc =
        [{ cmd := SOF_IPC_COMP_SET_VALUE, ctrl_type := SOF_CTRL_TYPE_VALUE_CHAN_GET,
           ctrl_cmd := SOF_CTRL_CMD_ENUM,
           payload := { cdata with chanv := (List.range sc.num_channels).map fun i =>
             { channel := i, value := ucontrol.getD i 0 } } }]) ∧
    (∀ env sm_max sc cdata ucontrol, ¬env.pm_get_sync_ret < 0 →
      (∀ i, i < sc.num_channels →
        ucontrol.getD i 0 = (cdata.chanv.getD i chanvDefault).value) →
      (snd_sof_switch_put env sm_max sc cdata ucontrol).2.2.ipc = [] ∧
      (snd_sof_switch_put env sm_max sc cdata ucontrol).2.2.tx_msgs = []) ∧
    (∀ env sm_max sc cdata ucontrol, ¬env.pm_get_sync_ret < 0 →
      get_widget_type env.widget_list sc.comp_id = snd_soc_dapm_pga →
      (∃ i, i < sc.num_channels ∧
        ucontrol.getD i 0 ≠ (cdata.chanv.getD i chanvDefault).value) →
      (snd_sof_switch_put env sm_max sc cdata ucontrol).2.2.ipc =
        [{ cmd := SOF_IPC_COMP_SET_VALUE, ctrl_type := SOF_CTRL_TYPE_VALUE_CHAN_GET,
           ctrl_cmd := SOF_CTRL_CMD_SWITCH,
           payload := { cdata with chanv := (List.range sc.num_channels).map fun i =>
             { channel := i, value := ucontrol.getD i 0 } } }]) := by
  refine ⟨?_, ?_, ?_, ?_⟩
  · intro env sm_max sc cdata ucontrol h
    simp only [snd_sof_volume_put]
    rw [if_neg h]
    rfl
  · intro env sc cdata ucontrol h
    simp only [snd_sof_enum_put]
    rw [if_neg h]
    rfl
  · intro env sm_max sc cdata ucontrol h huneq
    have hchanged : ((List.range sc.num_channels).any fun i =>
        ucontrol.getD i 0 != (cdata.chanv.getD i chanvDefault).value) = false := by
      rw [List.any_eq_false]
      intro i hi
      rw [List.mem_range] at hi
      rw [huneq i hi]
      simp
    have hch0 : (decide (sc.num_channels ≠ 0 ∧
        ucontrol.getD 0 0 ≠ (cdata.chanv.getD 0 chanvDefault).value) : Bool) = false := by
      rw [decide_eq_false_iff_not]
      rintro ⟨hc, hne⟩
      exact hne (huneq 0 (by omega))
    constructor <;>
    · simp only [snd_sof_switch_put, hchanged, hch0, Bool.false_eq_true, if_false]
      rw [if_neg h]
      split_ifs <;> rfl
  · intro env sm_max sc cdata ucontrol h hw hex
    have hchanged : ((List.range sc.num_channels).any fun i =>
        ucontrol.getD i 0 != (cdata.chanv.getD i chanvDefault).value) = true := by
      rw [List.any_eq_true]
      obtain ⟨i, hi, hne⟩ := hex
      exact ⟨i, List.mem_range.mpr hi, by simpa using hne⟩
    simp only [snd_sof_switch_put]
    rw [if_neg h, if_pos hw, if_pos hchanged]
    rfl

theorem claim1_witness :
    (snd_sof_volume_put envBase 1 scVol cd10 [0]).2.2.ipc =
      [{ cmd := SOF_IPC_COMP_SET_VALUE, ctrl_type := SOF_CTRL_TYPE_VALUE_CHAN_GET,
         ctrl_cmd := SOF_CTRL_CMD_VOLUME,
         payload := { chanv := [{ channel := 0, value := 0 }], data := abi0 } }] ∧
    (snd_sof_switch_put envBase 1 scVol cd10 [10]).2.2.ipc = [] := by
  constructor
  · exact claim1_put_value_transactions.1 envBase 1 scVol cd10 [0] (by decide)
  · exact (claim1_put_value_transactions.2.2.1 envBase 1 scVol cd10 [10] (by decide)
      (fun i hi => by
        rcases Nat.lt_one_iff.mp (show i < 1 from hi) with rfl
        decide)).1

/-- C2 is false: with a failing transport (-110) the volume get handler still
issues the transaction, ignores the transport status and reports success
(returns 0). -/
theorem claim2_counterexample :
    envIpcFail.ipc_ret < 0 ∧
    (snd_sof_volume_get envIpcFail 1 scVol cd10 []).1 = 0 ∧
    (snd_sof_volume_get envIpcFail 1 scVol cd10 []).2.2.2.ipc.length = 1 := by decide

/-- C2 (amended): the value handlers (volume/switch/enum get and put) ignore
the transport status of `snd_sof_ipc_set_get_comp_data` and return 0 whenever
the resume succeeded; `snd_sof_bytes_get`, `snd_sof_bytes_put` and
`snd_sof_bytes_ext_put` likewise ignore it, returning the resume status (or
their own -EINVAL size-check failure); only `snd_sof_bytes_ext_get` surfaces
the transport status to the caller (when the post-transaction size check and
the user copies succeed).  No handler retries: every handler issues at most
one transport call per operation, on every input. -/
theorem claim2_ipc_error_handling :
    ((∀ env sm_max sc cdata ucontrol,
        (snd_sof_volume_get env sm_max sc cdata ucontrol).2.2.2.ipc.length ≤ 1) ∧
      (∀ env sm_max sc cdata ucontrol,
        (snd_sof_volume_put env sm_max sc cdata ucontrol).2.2.ipc.length ≤ 1) ∧
      (∀ env sc cdata ucontrol,
        (snd_sof_switch_get env sc cdata ucontrol).2.2.2.ipc.length ≤ 1) ∧
      (∀ env sm_max sc cdata ucontrol,
        (snd_sof_switch_put env sm_max sc cdata ucontrol).2.2.ipc.length ≤ 1) ∧
      (∀ env sc cdata ucontrol,
        (snd_sof_enum_get env sc cdata ucontrol).2.2.2.ipc.length ≤ 1) ∧
      (∀ env sc cdata ucontrol,
        (snd_sof_enum_put env sc cdata ucontrol).2.2.ipc.length ≤ 1) ∧
      (∀ env be_max sc cdata,
        (snd_sof_bytes_get env be_max sc cdata).2.2.ipc.length ≤ 1) ∧
      (∀ env be_max sc cdata ucontrol_data,
        (snd_sof_bytes_put env be_max sc cdata ucontrol_data).2.2.ipc.length ≤ 1) ∧
      (∀ env be_max sc cdata,
        (snd_sof_bytes_ext_put env be_max sc cdata).2.2.ipc.length ≤ 1) ∧
      (∀ env be_max sc cdata size,
        (snd_sof_bytes_ext_get env be_max sc cdata size).2.2.ipc.length ≤ 1)) ∧
    ((∀ env sm_max sc cdata ucontrol, ¬env.pm_get_sync_ret < 0 →
        (snd_sof_volume_get env sm_max sc cdata ucontrol).1 = 0 ∧
        (snd_sof_volume_get env sm_max sc cdata ucontrol).2.2.2.ipc.length = 1) ∧
      (∀ env sm_max sc cdata ucontrol, ¬env.pm_get_sync_ret < 0 →
        (snd_sof_volume_put env sm_max sc cdata ucontrol).1 = 0 ∧
        (snd_sof_volume_put env sm_max sc cdata ucontrol).2.2.ipc.length = 1) ∧
      (∀ env sc cdata ucontrol, ¬env.pm_get_sync_ret < 0 →
        (snd_sof_switch_get env sc cdata ucontrol).1 = 0 ∧
        (snd_sof_switch_get env sc cdata ucontrol).2.2.2.ipc.length = 1) ∧
      (∀ env sc cdata ucontrol, ¬env.pm_get_sync_ret < 0 →
        (snd_sof_enum_get env sc cdata ucontrol).1 = 0 ∧
        (snd_sof_enum_get env sc cdata ucontrol).2.2.2.ipc.length = 1) ∧
      (∀ env sc cdata ucontrol, ¬env.pm_get_sync_ret < 0 →
        (snd_sof_enum_put env sc cdata ucontrol).1 = 0 ∧
        (snd_sof_enum_put env sc cdata ucontrol).2.2.ipc.length = 1) ∧
      (∀ env sm_max sc cdata ucontrol, ¬env.pm_get_sync_ret < 0 →
        (snd_sof_switch_put env sm_max sc cdata ucontrol).1 = 0) ∧
      (∀ env be_max sc cdata, ¬env.pm_get_sync_ret < 0 →
        ¬ucontrol_bytes_data_size < be_max →
        (snd_sof_bytes_get env be_max sc cdata).2.2.ipc.length = 1 ∧
        (¬be_max < env.dsp_data.size + sof_abi_hdr_size →
          (snd_sof_bytes_get env be_max sc cdata).1 = env.pm_get_sync_ret) ∧
        (be_max < env.dsp_data.size + sof_abi_hdr_size →
          (snd_sof_bytes_get env be_max sc cdata).1 = -EINVAL)) ∧
      (∀ env be_max sc cdata ucontrol_data, ¬env.pm_get_sync_ret < 0 →
        ¬ucontrol_bytes_data_size < be_max →
        ¬be_max < cdata.data.size + sof_abi_hdr_size →
        (snd_sof_bytes_put env be_max sc cdata ucontrol_data).1 = env.pm_get_sync_ret ∧
        (snd_sof_bytes_put env be_max sc cdata ucontrol_data).2.2.ipc.length = 1) ∧
      (∀ env be_max sc cdata, ¬env.pm_get_sync_ret < 0 →
        env.copy_header_ok = true → ¬be_max < env.user_header.length →
        env.user_header.numid = sc.cmd → env.copy_data_ok = true →
        env.user_data.magic = SOF_ABI_MAGIC →
        SOF_ABI_VERSION_INCOMPATIBLE SOF_ABI_VERSION env.user_data.abi = false →
        ¬be_max < env.user_data.size + sof_abi_hdr_size →
        (snd_sof_bytes_ext_put env be_max sc cdata).1 = env.pm_get_sync_ret ∧
        (snd_sof_bytes_ext_put env be_max sc cdata).2.2.ipc.length = 1) ∧
      (∀ env be_max sc cdata size, ¬env.pm_get_sync_ret < 0 →
        (snd_sof_bytes_ext_get env be_max sc cdata size).2.2.ipc.length = 1 ∧
        (¬be_max < env.dsp_data.size + sof_abi_hdr_size →
          env.copy_hdr_to_user_ok = true → env.copy_data_to_user_ok = true →
          (snd_sof_bytes_ext_get env be_max sc cdata size).1 = env.ipc_ret))) := by
  constructor
  · refine ⟨?_, ?_, ?_, ?_, ?_, ?_, ?_, ?_, ?_, ?_⟩
    · intro env sm_max sc cdata ucontrol
      simp only [snd_sof_volume_get]
      split_ifs <;> simp [noEffects]
    · intro env sm_max sc cdata ucontrol
      simp only [snd_sof_volume_put]
      split_ifs <;> simp [noEffects]
    · intro env sc cdata ucontrol
      simp only [snd_sof_switch_get]
      split_ifs <;> simp [noEffects]
    · intro env sm_max sc cdata ucontrol
      simp only [snd_sof_switch_put]
      split_ifs <;> simp [noEffects]
    · intro env sc cdata ucontrol
      simp only [snd_sof_enum_get]
      split_ifs <;> simp [noEffects]
    · intro env sc cdata ucontrol
      simp only [snd_sof_enum_put]
      split_ifs <;> simp [noEffects]
    · intro env be_max sc cdata
      simp only [snd_sof_bytes_get]
      split_ifs <;> simp [noEffects]
    · intro env be_max sc cdata ucontrol_data
      simp only [snd_sof_bytes_put]
      split_ifs <;> simp [noEffects]
    · intro env be_max sc cdata
      simp only [snd_sof_bytes_ext_put]
      split_ifs <;> simp [noEffects]
    · intro env be_max sc cdata size
      simp only [snd_sof_bytes_ext_get]
      split_ifs <;> simp [noEffects]
  refine ⟨?_, ?_, ?_, ?_, ?_, ?_, ?_, ?_, ?_, ?_⟩
  · intro env sm_max sc cdata ucontrol h
    simp only [snd_sof_volume_get]
    rw [if_neg h]
    exact ⟨rfl, rfl⟩
  · intro env sm_max sc cdata ucontrol h
    simp only [snd_sof_volume_put]
    rw [if_neg h]
    exact ⟨rfl, rfl⟩
  · intro env sc cdata ucontrol h
    simp only [snd_sof_switch_get]
    rw [if_neg h]
    exact ⟨rfl, rfl⟩
  · intro env sc cdata ucontrol h
    simp only [snd_sof_enum_get]
    rw [if_neg h]
    exact ⟨rfl, rfl⟩
  · intro env sc cdata ucontrol h
    simp only [snd_sof_enum_put]
    rw [if_neg h]
    exact ⟨rfl, rfl⟩
  · intro env sm_max sc cdata ucontrol h
    simp only [snd_sof_switch_put]
    rw [if_neg h]
    split_ifs <;> rfl
  · intro env be_max sc cdata h hbe
    refine ⟨?_, ?_, ?_⟩
    · simp [snd_sof_bytes_get, snd_sof_ipc_set_get_comp_data, SOF_IPC_COMP_GET_DATA,
        SOF_IPC_COMP_GET_VALUE, h, hbe, noEffects]
      split_ifs <;> simp
    · intro hsz
      simp [snd_sof_bytes_get, snd_sof_ipc_set_get_comp_data, SOF_IPC_COMP_GET_DATA,
        SOF_IPC_COMP_GET_VALUE, h, hbe, hsz, noEffects]
    · intro hsz
      simp [snd_sof_bytes_get, snd_sof_ipc_set_get_comp_data, SOF_IPC_COMP_GET_DATA,
        SOF_IPC_COMP_GET_VALUE, h, hbe, hsz, noEffects]
  · intro env be_max sc cdata ucontrol_data h hbe hsize
    simp only [snd_sof_bytes_put]
    rw [if_neg hbe, if_neg hsize, if_neg h]
    exact ⟨rfl, rfl⟩
  · intro env be_max sc cdata h hok hlen hnum hcopy hmagic habi hsize
    simp only [snd_sof_bytes_ext_put]
    rw [if_neg (by simp [hok]), if_neg hlen, if_neg (by simp [hnum]),
      if_neg (by simp [hcopy]), if_neg (by simp [hmagic]), if_neg (by simp [habi]),
      if_neg (by simpa using hsize), if_neg h]
    exact ⟨rfl, rfl⟩
  · intro env be_max sc cdata size h
    constructor
    · simp only [snd_sof_bytes_ext_get]
      rw [if_neg h]
      split_ifs <;> rfl
    · intro hsz hok1 hok2
      simp [snd_sof_bytes_ext_get, snd_sof_ipc_set_get_comp_data, SOF_IPC_COMP_GET_DATA,
        SOF_IPC_COMP_GET_VALUE, h, hsz, hok1, hok2]

theorem claim2_witness :
    (snd_sof_volume_get envIpcFail 1 scVol cd10 []).1 = 0 ∧
    (snd_sof_volume_get envIpcFail 1 scVol cd10 []).2.2.2.ipc.length ≤ 1 ∧
    (snd_sof_bytes_ext_get envIpcFail 64 scBytes cd10 16).1 = envIpcFail.ipc_ret := by
  refine ⟨?_, ?_, ?_⟩
  · exact (claim2_ipc_error_handling.2.1 envIpcFail 1 scVol cd10 [] (by decide)).1
  · exact claim2_ipc_error_handling.1.1 envIpcFail 1 scVol cd10 []
  · exact (claim2_ipc_error_handling.2.2.2.2.2.2.2.2.2.2 envIpcFail 64 scBytes cd10 16
      (by decide)).2 (by decide) (by decide) (by decide)

/-- C3 is false for the magic/ABI/size checks: an extended blob put whose blob
magic is wrong is rejected with -EINVAL, but only after `copy_from_user` has
already overwritten the control's cached data buffer `cdata->data` with the
user blob — the buffer is mutated before the error return. -/
theorem claim3_counterexample :
    (snd_sof_bytes_ext_put envMagicBad 64 scBytes cd10).1 = -EINVAL ∧
    (snd_sof_bytes_ext_put envMagicBad 64 scBytes cd10).2.1.data ≠ cd10.data ∧
    (snd_sof_bytes_ext_put envMagicBad 64 scBytes cd10).2.2.ipc = [] := by decide

/-- C3 (amended): every validation failure of `snd_sof_bytes_ext_put` returns
a negative error before any device transaction is issued; the declared-length
and envelope-id checks fail before `cdata->data` is touched, but the magic,
ABI-version and declared-size checks are performed on data already copied into
`cdata->data`, so those failures leave the cached buffer overwritten with the
user blob. -/
theorem claim3_ext_put_validation :
    (∀ env be_max sc cdata,
      (env.copy_header_ok = false ∨ be_max < env.user_header.length ∨
        env.user_header.numid ≠ sc.cmd ∨ env.copy_data_ok = false ∨
        env.user_data.magic ≠ SOF_ABI_MAGIC ∨
        SOF_ABI_VERSION_INCOMPATIBLE SOF_ABI_VERSION env.user_data.abi = true ∨
        be_max < env.user_data.size + sof_abi_hdr_size) →
      (snd_sof_bytes_ext_put env be_max sc cdata).1 < 0 ∧
      (snd_sof_bytes_ext_put env be_max sc cdata).2.2.ipc = []) ∧
    (∀ env be_max sc cdata, env.copy_header_ok = true →
      (be_max < env.user_header.length ∨
        (¬be_max < env.user_header.length ∧ env.user_header.numid ≠ sc.cmd)) →
      (snd_sof_bytes_ext_put env be_max sc cdata).1 = -EINVAL ∧
      (snd_sof_bytes_ext_put env be_max sc cdata).2.1 = cdata) ∧
    (∀ env be_max sc cdata, env.copy_header_ok = true →
      ¬be_max < env.user_header.length → env.user_header.numid = sc.cmd →
      env.copy_data_ok = true →
      (env.user_data.magic ≠ SOF_ABI_MAGIC ∨
        (env.user_data.magic = SOF_ABI_MAGIC ∧
          SOF_ABI_VERSION_INCOMPATIBLE SOF_ABI_VERSION env.user_data.abi = true) ∨
        (env.user_data.magic = SOF_ABI_MAGIC ∧
          SOF_ABI_VERSION_INCOMPATIBLE SOF_ABI_VERSION env.user_data.abi = false ∧
          be_max < env.user_data.size + sof_abi_hdr_size)) →
      (snd_sof_bytes_ext_put env be_max sc cdata).1 = -EINVAL ∧
      (snd_sof_bytes_ext_put env be_max sc cdata).2.1.data = env.user_data) := by
  refine ⟨?_, ?_, ?_⟩
  · intro env be_max sc cdata hv
    simp only [snd_sof_bytes_ext_put]
    split_ifs with h1 h2 h3 h4 h5 h6 h7 h8
    · exact ⟨by norm_num [EFAULT], rfl⟩
    · exact ⟨by norm_num [EINVAL], rfl⟩
    · exact ⟨by norm_num [EINVAL], rfl⟩
    · exact ⟨by norm_num [EFAULT], rfl⟩
    · exact ⟨by norm_num [EINVAL], rfl⟩
    · exact ⟨by norm_num [EINVAL], rfl⟩
    · exact ⟨by norm_num [EINVAL], rfl⟩
    · rcases hv with hv | hv | hv | hv | hv | hv | hv <;> simp_all
    · rcases hv with hv | hv | hv | hv | hv | hv | hv <;> simp_all
  · intro env be_max sc cdata hok hd
    rcases hd with hlen | ⟨hlen, hnum⟩
    · constructor <;> simp [snd_sof_bytes_ext_put, hok, hlen]
    · constructor <;> simp [snd_sof_bytes_ext_put, hok, hlen, hnum]
  · intro env be_max sc cdata hok hlen hnum hcopy hd
    rcases hd with hmagic | ⟨hmagic, habi⟩ | ⟨hmagic, habi, hsize⟩
    · constructor <;> simp [snd_sof_bytes_ext_put, hok, hlen, hnum, hcopy, hmagic]
    · constructor <;> simp [snd_sof_bytes_ext_put, hok, hlen, hnum, hcopy, hmagic, habi]
    · constructor <;>
        simp [snd_sof_bytes_ext_put, hok, hlen, hnum, hcopy, hmagic, habi, hsize]

theorem claim3_witness :
    ((snd_sof_bytes_ext_put envMagicBad 64 scBytes cd10).1 = -EINVAL ∧
      (snd_sof_bytes_ext_put envMagicBad 64 scBytes cd10).2.1.data =
        envMagicBad.user_data) ∧
    ((snd_sof_bytes_ext_put envAbiBad 64 scBytes cd10).1 = -EINVAL ∧
      (snd_sof_bytes_ext_put envAbiBad 64 scBytes cd10).2.1.data = envAbiBad.user_data) ∧
    ((snd_sof_bytes_ext_put envSizeBad 64 scBytes cd10).1 = -EINVAL ∧
      (snd_sof_bytes_ext_put envSizeBad 64 scBytes cd10).2.1.data = envSizeBad.user_data) := by
  refine ⟨?_, ?_, ?_⟩
  · exact claim3_ext_put_validation.2.2 envMagicBad 64 scBytes cd10 (by decide) (by decide)
      (by decide) (by decide) (Or.inl (by decide))
  · exact claim3_ext_put_validation.2.2 envAbiBad 64 scBytes cd10 (by decide) (by decide)
      (by decide) (by decide) (Or.inr (Or.inl (by decide)))
  · exact claim3_ext_put_validation.2.2 envSizeBad 64 scBytes cd10 (by decide) (by decide)
      (by decide) (by decide) (Or.inr (Or.inr (by decide)))

/-- C8: for every handler, when the synchronous resume fails the operation
returns that error unchanged, performs zero transport and stream messages, and
drops the activity reference taken by the failed resume via
`pm_runtime_put_noidle` (and schedules no autosuspend) — the effect record is
exactly `{ noEffects with put_noidle := 1 }`. -/
theorem claim8_resume_failure :
    (∀ env sm_max sc cdata ucontrol, env.pm_get_sync_ret < 0 →
      (snd_sof_volume_get env sm_max sc cdata ucontrol).1 = env.pm_get_sync_ret ∧
      (snd_sof_volume_get env sm_max sc cdata ucontrol).2.2.2 =
        { noEffects with put_noidle := 1 }) ∧
    (∀ env sm_max sc cdata ucontrol, env.pm_get_sync_ret < 0 →
      (snd_sof_volume_put env sm_max sc cdata ucontrol).1 = env.pm_get_sync_ret ∧
      (snd_sof_volume_put env sm_max sc cdata ucontrol).2.2 =
        { noEffects with put_noidle := 1 }) ∧
    (∀ env sc cdata ucontrol, env.pm_get_sync_ret < 0 →
      (snd_sof_switch_get env sc cdata ucontrol).1 = env.pm_get_sync_ret ∧
      (snd_sof_switch_get env sc cdata ucontrol).2.2.2 =
        { noEffects with put_noidle := 1 }) ∧
    (∀ env sm_max sc cdata ucontrol, env.pm_get_sync_ret < 0 →
      (snd_sof_switch_put env sm_max sc cdata ucontrol).1 = env.pm_get_sync_ret ∧
      (snd_sof_switch_put env sm_max sc cdata ucontrol).2.2 =
        { noEffects with put_noidle := 1 }) ∧
    (∀ env sc cdata ucontrol, env.pm_get_sync_ret < 0 →
      (snd_sof_enum_get env sc cdata ucontrol).1 = env.pm_get_sync_ret ∧
      (snd_sof_enum_get env sc cdata ucontrol).2.2.2 =
        { noEffects with put_noidle := 1 }) ∧
    (∀ env sc cdata ucontrol, env.pm_get_sync_ret < 0 →
      (snd_sof_enum_put env sc cdata ucontrol).1 = env.pm_get_sync_ret ∧
      (snd_sof_enum_put env sc cdata ucontrol).2.2 =
        { noEffects with put_noidle := 1 }) ∧
    (∀ env be_max sc cdata, env.pm_get_sync_ret < 0 →
      ¬ucontrol_bytes_data_size < be_max →
      (snd_sof_bytes_get env be_max sc cdata).1 = env.pm_get_sync_ret ∧
      (snd_sof_bytes_get env be_max sc cdata).2.2 =
        { noEffects with put_noidle := 1 }) ∧
    (∀ env be_max sc cdata ucontrol_data, env.pm_get_sync_ret < 0 →
      ¬ucontrol_bytes_data_size < be_max →
      ¬be_max < cdata.data.size + sof_abi_hdr_size →
      (snd_sof_bytes_put env be_max sc cdata ucontrol_data).1 = env.pm_get_sync_ret ∧
      (snd_sof_bytes_put env be_max sc cdata ucontrol_data).2.2 =
        { noEffects with put_noidle := 1 }) ∧
    (∀ env be_max sc cdata, env.pm_get_sync_ret < 0 →
      env.copy_header_ok = true → ¬be_max < env.user_header.length →
      env.user_header.numid = sc.cmd → env.copy_data_ok = true →
      env.user_data.magic = SOF_ABI_MAGIC →
      SOF_ABI_VERSION_INCOMPATIBLE SOF_ABI_VERSION env.user_data.abi = false →
      ¬be_max < env.user_data.size + sof_abi_hdr_size →
      (snd_sof_bytes_ext_put env be_max sc cdata).1 = env.pm_get_sync_ret ∧
      (snd_sof_bytes_ext_put env be_max sc cdata).2.2 =
        { noEffects with put_noidle := 1 }) ∧
    (∀ env be_max sc cdata size, env.pm_get_sync_ret < 0 →
      (snd_sof_bytes_ext_get env be_max sc cdata size).1 = env.pm_get_sync_ret ∧
      (snd_sof_bytes_ext_get env be_max sc cdata size).2.2 =
        { noEffects with put_noidle := 1 }) := by
  refine ⟨?_, ?_, ?_, ?_, ?_, ?_, ?_, ?_, ?_, ?_⟩
  · intro env sm_max sc cdata ucontrol h
    simp only [snd_sof_volume_get]
    rw [if_pos h]
    exact ⟨rfl, rfl⟩
  · intro env sm_max sc cdata ucontrol h
    simp only [snd_sof_volume_put]
    rw [if_pos h]
    exact ⟨rfl, rfl⟩
  · intro env sc cdata ucontrol h
    simp only [snd_sof_switch_get]
    rw [if_pos h]
    exact ⟨rfl, rfl⟩
  · intro env sm_max sc cdata ucontrol h
    simp only [snd_sof_switch_put]
    rw [if_pos h]
    exact ⟨rfl, rfl⟩
  · intro env sc cdata ucontrol h
    simp only [snd_sof_enum_get]
    rw [if_pos h]
    exact ⟨rfl, rfl⟩
  · intro env sc cdata ucontrol h
    simp only [snd_sof_enum_put]
    rw [if_pos h]
    exact ⟨rfl, rfl⟩
  · intro env be_max sc cdata h hbe
    simp only [snd_sof_bytes_get]
    rw [if_neg hbe, if_pos h]
    exact ⟨rfl, rfl⟩
  · intro env be_max sc cdata ucontrol_data h hbe hsize
    simp only [snd_sof_bytes_put]
    rw [if_neg hbe, if_neg hsize, if_pos h]
    exact ⟨rfl, rfl⟩
  · intro env be_max sc cdata h hok hlen hnum hcopy hmagic habi hsize
    simp only [snd_sof_bytes_ext_put]
    rw [if_neg (by simp [hok]), if_neg hlen, if_neg (by simp [hnum]),
      if_neg (by simp [hcopy]), if_neg (by simp [hmagic]), if_neg (by simp [habi]),
      if_neg (by simpa using hsize), if_pos h]
    exact ⟨rfl, rfl⟩
  · intro env be_max sc cdata size h
    simp only [snd_sof_bytes_ext_get]
    rw [if_pos h]
    exact ⟨rfl, rfl⟩

theorem claim8_witness :
    (snd_sof_volume_get envPmFail 1 scVol cd10 []).1 = -13 ∧
    (snd_sof_volume_get envPmFail 1 scVol cd10 []).2.2.2 =
      { noEffects with put_noidle := 1 } ∧
    (snd_sof_bytes_ext_put envPmFailExt 64 scBytes cd10).1 = -13 ∧
    (snd_sof_bytes_ext_put envPmFailExt 64 scBytes cd10).2.2 =
      { noEffects with put_noidle := 1 } := by
  have h1 := claim8_resume_failure.1 envPmFail 1 scVol cd10 [] (by decide)
  have h2 := claim8_resume_failure.2.2.2.2.2.2.2.2.1 envPmFailExt 64 scBytes cd10
    (by decide) (by decide) (by decide) (by decide) (by decide) (by decide) (by decide)
    (by decide)
  exact ⟨h1.1, h1.2, h2.1, h2.2⟩

/-- C9: for every bytes-control get (plain and extended), after the device
get-data transaction the declared payload size plus the header size is
validated against the control's maximum; on violation the operation returns
-EINVAL and copies nothing out to the caller; concretely, maximum 64 with
header size 12 and declared payload size 60 is rejected because 12+60=72 > 64. -/
theorem claim9_bytes_get_size_validation :
    (∀ env be_max sc cdata, ¬ucontrol_bytes_data_size < be_max →
      ¬env.pm_get_sync_ret < 0 → be_max < env.dsp_data.size + sof_abi_hdr_size →
      (snd_sof_bytes_get env be_max sc cdata).1 = -EINVAL ∧
      (snd_sof_bytes_get env be_max sc cdata).2.2.user_copy = []) ∧
    (∀ env be_max sc cdata size, ¬env.pm_get_sync_ret < 0 →
      be_max < env.dsp_data.size + sof_abi_hdr_size →
      (snd_sof_bytes_ext_get env be_max sc cdata size).1 = -EINVAL ∧
      (snd_sof_bytes_ext_get env be_max sc cdata size).2.2.user_copy = []) ∧
    ((snd_sof_bytes_get envDsp60 64 scBytes cd10).1 = -EINVAL ∧
      (snd_sof_bytes_get envDsp60 64 scBytes cd10).2.2.user_copy = [] ∧
      envDsp60.dsp_data.size + sof_abi_hdr_size = 72) := by
  refine ⟨?_, ?_, by decide⟩
  · intro env be_max sc cdata hbe h hsz
    constructor <;>
      simp [snd_sof_bytes_get, snd_sof_ipc_set_get_comp_data, SOF_IPC_COMP_GET_DATA,
        SOF_IPC_COMP_GET_VALUE, hbe, h, hsz, noEffects]
  · intro env be_max sc cdata size h hsz
    constructor <;>
      simp [snd_sof_bytes_ext_get, snd_sof_ipc_set_get_comp_data, SOF_IPC_COMP_GET_DATA,
        SOF_IPC_COMP_GET_VALUE, h, hsz, noEffects]

theorem claim9_witness :
    (snd_sof_bytes_ext_get envDsp60 64 scBytes cd10 100).1 = -EINVAL ∧
    (snd_sof_bytes_ext_get envDsp60 64 scBytes cd10 100).2.2.user_copy = [] :=
  claim9_bytes_get_size_validation.2.1 envDsp60 64 scBytes cd10 100 (by decide) (by decide)

/-- C10: `snd_sof_bytes_ext_get` never bounds-checks the outgoing copy against
the caller-supplied size argument — the subtraction of the envelope header size
from that argument is dead code (the result is the same for every size
argument), and the only size check is against the topology maximum `be->max`;
concretely, with maximum 64 and a device-reported payload of 52 bytes, 72 bytes
(8-byte envelope plus 64 bytes of blob) are copied to user space although the
caller declared a buffer of only 16 bytes. -/
theorem claim10_ext_get_ignores_caller_size :
    (∀ env be_max sc cdata s1 s2,
      snd_sof_bytes_ext_get env be_max sc cdata s1 =
        snd_sof_bytes_ext_get env be_max sc cdata s2) ∧
    ((snd_sof_bytes_ext_get envDsp52 64 scBytes cd10 16).2.2.user_copy.sum = 72 ∧
      (16 : Nat) < 72 ∧ envDsp52.dsp_data.size + sof_abi_hdr_size = 64 ∧
      (snd_sof_bytes_ext_get envDsp52 64 scBytes cd10 16).1 = 0) := by
  exact ⟨fun env be_max sc cdata s1 s2 => rfl, by decide⟩

end SOF
